import Mathlib

/-!
Verification of the smart door lock finite-state-machine engine
(`fsm_states.py`, class `SmartDoorLockFSM`).

The Python class is shallowly embedded: every method becomes a Lean
function on an explicit `FSM` state record.  Calls to `datetime.now()`
become an explicit `now : Int` timestamp parameter (durations are in
seconds), and the calls to the global random generator inside
`_update_sensors` become an explicit `Noise` record parameter.  Python
dictionaries become association lists in insertion order (`find?` models
dict lookup, which returns the first — and, for a dict, only — binding
of a key).  A Python function that can fall off the end (returning
`None`) or raise is given an explicit result type (`Option`,
`PyResult`).
-/

namespace SmartLock

/-- The `LockState` enum of fsm_states.py (12 variants). -/
inductive LockState where
  | UNLOCKED
  | LOCKED
  | ARMED
  | DISARMED
  | TAMPERED
  | MAINTENANCE
  | LOW_BATTERY
  | OFFLINE
  | EMERGENCY_UNLOCK
  | LOCKOUT
  | GUEST_ACCESS
  | ADMIN_OVERRIDE
  deriving DecidableEq, Repr, Fintype

/-- The `.value` string of each `LockState` member. -/
def LockState.value : LockState → String
  | .UNLOCKED => "UNLOCKED"
  | .LOCKED => "LOCKED"
  | .ARMED => "ARMED"
  | .DISARMED => "DISARMED"
  | .TAMPERED => "TAMPERED"
  | .MAINTENANCE => "MAINTENANCE"
  | .LOW_BATTERY => "LOW_BATTERY"
  | .OFFLINE => "OFFLINE"
  | .EMERGENCY_UNLOCK => "EMERGENCY_UNLOCK"
  | .LOCKOUT => "LOCKOUT"
  | .GUEST_ACCESS => "GUEST_ACCESS"
  | .ADMIN_OVERRIDE => "ADMIN_OVERRIDE"

/-- The `TriggerType` enum of fsm_states.py (12 variants). -/
inductive TriggerType where
  | KEYPAD
  | BIOMETRIC
  | PROXIMITY
  | MOBILE_APP
  | PHYSICAL_KEY
  | VOICE_COMMAND
  | SCHEDULE
  | GEOFENCE
  | EMERGENCY
  | ADMIN
  | SYSTEM
  | SENSOR
  deriving DecidableEq, Repr, Fintype

/-- The `SecurityLevel` enum of fsm_states.py. -/
inductive SecurityLevel where
  | GUEST
  | USER
  | ADMIN
  | EMERGENCY
  deriving DecidableEq, Repr

/-- The numeric `.value` of each `SecurityLevel` member. -/
def SecurityLevel.value : SecurityLevel → Nat
  | .GUEST => 1
  | .USER => 2
  | .ADMIN => 3
  | .EMERGENCY => 4

/-- One record of the `authorized_users` dict: level, keypad code,
optional biometric identifier, optional expiry timestamp (the optional
`"expires"` key). -/
structure UserData where
  level : SecurityLevel
  code : String
  biometric : Option String
  expires : Option Int
  deriving DecidableEq, Repr

/-- The `sensors` dict of the engine. -/
structure SensorSet where
  door_sensor : Bool
  motion_sensor : Bool
  proximity_sensor : Bool
  tamper_sensor : Bool
  sound_sensor : Rat
  light_sensor : Rat
  deriving DecidableEq, Repr

/-- One entry of `state_history`, as built by `_log_state_change`. -/
structure HistoryEntry where
  timestamp : Int
  from_state : Option LockState
  to_state : LockState
  reason : String
  battery_level : Rat
  temperature : Rat
  sensors : SensorSet
  deriving DecidableEq, Repr

/-- The mutable attributes of a `SmartDoorLockFSM` instance. -/
structure FSM where
  current_state : LockState
  previous_state : Option LockState
  state_history : List HistoryEntry
  battery_level : Rat
  temperature : Rat
  connectivity_status : Bool
  last_maintenance : Int
  failed_attempts : Nat
  max_failed_attempts : Nat
  lockout_duration : Int
  lockout_start_time : Option Int
  intrusion_detected : Bool
  authorized_users : List (String × UserData)
  sensors : SensorSet
  auto_lock_delay : Int
  last_unlock_time : Option Int
  deriving DecidableEq, Repr

/-- The random draws consumed by one `_update_sensors` call:
`random.uniform(0.01, 0.05)` battery drain, `random.uniform(-0.5, 0.5)`
temperature drift, whether `random.random() < 0.1` fired, and the three
re-randomized sensor values for that case. -/
structure Noise where
  battery_drain : Rat
  temp_delta : Rat
  resample : Bool
  motion : Bool
  sound : Rat
  light : Rat
  deriving DecidableEq, Repr

/-- The payload dict handed to `process_trigger`, restricted to the keys
the dispatcher reads, each with its `data.get` default.  `value` is the
`"value"` key of sensor triggers (`None` or a boolean). -/
structure Payload where
  code : String := ""
  biometric_data : String := ""
  user_id : String := ""
  command : String := ""
  event : String := ""
  emergency_type : String := ""
  sensor : String := ""
  value : Option Bool := none
  deriving DecidableEq, Repr

/-- Python truthiness of the `"value"` payload entry. -/
def pyTruthy : Option Bool → Bool
  | none => false
  | some b => b

/-- Python `str()` of the `"value"` payload entry, used in the sensor
handler's fallback message. -/
def pyStrValue : Option Bool → String
  | none => "None"
  | some true => "True"
  | some false => "False"

/-- The dict literal returned by `_build_transition_matrix`:
`(state, event) -> (next state, default reason)`, in source order. -/
def transitionMatrix : List ((LockState × String) × (LockState × String)) :=
  [ ((.DISARMED, "lock"), (.LOCKED, "Manual lock")),
    ((.DISARMED, "unlock"), (.UNLOCKED, "Manual unlock")),
    ((.DISARMED, "arm"), (.ARMED, "System armed")),
    ((.LOCKED, "unlock"), (.UNLOCKED, "Manual unlock")),
    ((.UNLOCKED, "lock"), (.LOCKED, "Manual lock")),
    ((.UNLOCKED, "auto_lock"), (.LOCKED, "Auto-lock timeout")),
    ((.ARMED, "disarm"), (.DISARMED, "System disarmed")),
    ((.ARMED, "intrusion"), (.TAMPERED, "Intrusion detected")),
    ((.LOCKED, "tamper"), (.TAMPERED, "Tampering detected")),
    ((.UNLOCKED, "tamper"), (.TAMPERED, "Tampering detected")),
    ((.TAMPERED, "reset"), (.LOCKED, "Security reset")),
    ((.LOCKOUT, "timeout"), (.LOCKED, "Lockout period expired")),
    ((.LOCKED, "maintenance"), (.MAINTENANCE, "Maintenance mode")),
    ((.UNLOCKED, "maintenance"), (.MAINTENANCE, "Maintenance mode")),
    ((.MAINTENANCE, "exit_maintenance"), (.LOCKED, "Maintenance complete")),
    ((.LOCKED, "low_battery"), (.LOW_BATTERY, "Battery low")),
    ((.LOW_BATTERY, "battery_replaced"), (.LOCKED, "Battery replaced")),
    ((.LOCKED, "emergency"), (.EMERGENCY_UNLOCK, "Emergency unlock")),
    ((.TAMPERED, "admin_override"), (.ADMIN_OVERRIDE, "Admin override")),
    ((.LOCKOUT, "admin_override"), (.ADMIN_OVERRIDE, "Admin override")),
    ((.ADMIN_OVERRIDE, "restore"), (.LOCKED, "Normal operation restored")),
    ((.LOCKED, "guest_unlock"), (.GUEST_ACCESS, "Guest access granted")),
    ((.GUEST_ACCESS, "guest_timeout"), (.LOCKED, "Guest access expired")),
    ((.LOCKED, "offline"), (.OFFLINE, "Connection lost")),
    ((.OFFLINE, "online"), (.LOCKED, "Connection restored")) ]

/-- Dict lookup `self.transitions.get((state, event))` on the (unique-key)
transition dict. -/
def lookupTransition (s : LockState) (e : String) : Option (LockState × String) :=
  (transitionMatrix.find? (fun p => decide (p.1 = (s, e)))).map (fun p => p.2)

/-- Dict lookup on `authorized_users`. -/
def dictGet (l : List (String × UserData)) (k : String) : Option UserData :=
  (l.find? (fun p => decide (p.1 = k))).map (fun p => p.2)

/-- Dict assignment `d[k] = v`: replace the binding of an existing key in
place, else append the new binding. -/
def dictSet (l : List (String × UserData)) (k : String) (v : UserData) :
    List (String × UserData) :=
  if l.any (fun p => decide (p.1 = k)) then
    l.map (fun p => if p.1 = k then (k, v) else p)
  else l ++ [(k, v)]

/-- The log entry built by `_log_state_change` (snapshotting battery,
temperature and sensors of the current state). -/
def mkEntry (s : FSM) (now : Int) (from_state : Option LockState)
    (to_state : LockState) (reason : String) : HistoryEntry :=
  { timestamp := now
    from_state := from_state
    to_state := to_state
    reason := reason
    battery_level := s.battery_level
    temperature := s.temperature
    sensors := s.sensors }

/-- `_log_state_change`: append the entry, then keep only the last 1000
entries (`self.state_history[-1000:]`) when the length exceeds 1000. -/
def log_state_change (s : FSM) (now : Int) (from_state : Option LockState)
    (to_state : LockState) (reason : String) : FSM :=
  let h := s.state_history ++ [mkEntry s now from_state to_state reason]
  { s with state_history := if h.length > 1000 then h.drop (h.length - 1000) else h }

/-- `_handle_state_entry`: state-entry side effects. -/
def handle_state_entry (s : FSM) (now : Int) (st : LockState) : FSM :=
  match st with
  | .UNLOCKED => { s with last_unlock_time := some now }
  | .LOCKOUT => { s with lockout_start_time := some now }
  | .TAMPERED => { s with intrusion_detected := true }
  | _ => s

/-- `_transition_to(event, reason)`: look up `(current_state, event)`; on a
hit, log the change, shift `previous_state`, set the new `current_state`,
run the entry side effects and return true; on a miss return false and
change nothing. -/
def transition_to (s : FSM) (now : Int) (event : String) (reason : String) :
    FSM × Bool :=
  match lookupTransition s.current_state event with
  | some (new_state, default_reason) =>
    let actual_reason := if reason = "" then default_reason else reason
    let s1 := log_state_change s now (some s.current_state) new_state actual_reason
    let s2 := { s1 with previous_state := some s1.current_state,
                        current_state := new_state }
    (handle_state_entry s2 now new_state, true)
  | none => (s, false)

/-- The scan loop of `_authenticate_code` over the `authorized_users`
items: the first user whose code matches decides the outcome — if that
user carries an `expires` stamp already passed (`now > expires`), the
loop returns `None` immediately. -/
def authCodeList (now : Int) (code : String) :
    List (String × UserData) → Option String
  | [] => none
  | (uid, ud) :: rest =>
    if ud.code = code then
      match ud.expires with
      | some e => if now > e then none else some uid
      | none => some uid
    else authCodeList now code rest

/-- `_authenticate_code`. -/
def authenticate_code (s : FSM) (now : Int) (code : String) : Option String :=
  authCodeList now code s.authorized_users

/-- `_authenticate_biometric`: first user whose stored biometric
identifier equals the submitted data (users storing `None` never match a
string). -/
def authenticate_biometric (s : FSM) (biometric_data : String) : Option String :=
  (s.authorized_users.find? (fun p => decide (p.2.biometric = some biometric_data))).map
    (fun p => p.1)

/-- `_is_in_lockout`: in `LOCKOUT`, an elapsed window auto-fires the
`timeout` transition and reports not-locked-out; an unelapsed (or
absent-start-time) window reports locked-out; any other state reports
not-locked-out.  Returns the possibly mutated state. -/
def is_in_lockout (s : FSM) (now : Int) : FSM × Bool :=
  if s.current_state = LockState.LOCKOUT then
    match s.lockout_start_time with
    | some st =>
      if now - st ≥ s.lockout_duration then
        ((transition_to s now "timeout" "Lockout period expired").1, false)
      else (s, true)
    | none => (s, true)
  else (s, false)

/-- `_update_sensors`: trigger-specific sensor writes, then the
unconditional battery drain and temperature drift, then the 10%-chance
re-randomization of motion/sound/light. -/
def update_sensors (s : FSM) (noise : Noise) (trigger_type : TriggerType) : FSM :=
  let s1 :=
    match trigger_type with
    | .PROXIMITY => { s with sensors := { s.sensors with proximity_sensor := true } }
    | .PHYSICAL_KEY =>
      { s with sensors := { s.sensors with door_sensor := !s.sensors.door_sensor } }
    | _ => s
  let s2 := { s1 with battery_level := s1.battery_level - noise.battery_drain,
                      temperature := s1.temperature + noise.temp_delta }
  if noise.resample then
    { s2 with sensors := { s2.sensors with motion_sensor := noise.motion,
                                           sound_sensor := noise.sound,
                                           light_sensor := noise.light } }
  else s2

/-- `_process_keypad_input`. -/
def process_keypad_input (s : FSM) (now : Int) (code : String) :
    FSM × Bool × String :=
  match authenticate_code s now code with
  | some user =>
    if s.current_state = LockState.LOCKED then
      let r := transition_to s now "unlock" ("Keypad unlock by " ++ user)
      if r.2 then ({ r.1 with failed_attempts := 0 }, true, "Unlocked by " ++ user)
      else (r.1, false, "Unlock failed")
    else if s.current_state = LockState.UNLOCKED then
      let r := transition_to s now "lock" ("Keypad lock by " ++ user)
      (r.1, r.2, if r.2 then "Locked by " ++ user else "Lock failed")
    else if s.current_state = LockState.DISARMED then
      let r := transition_to s now "unlock" ("Keypad unlock by " ++ user)
      if r.2 then ({ r.1 with failed_attempts := 0 }, true, "Unlocked by " ++ user)
      else (r.1, false, "Unlock failed")
    else
      (s, false,
        "Cannot process keypad input in current state: " ++ s.current_state.value)
  | none =>
    let s1 := { s with failed_attempts := s.failed_attempts + 1 }
    if s1.failed_attempts ≥ s1.max_failed_attempts then
      let r := transition_to s1 now "lockout" "Too many failed attempts"
      ({ r.1 with lockout_start_time := some now }, false,
        "System locked due to failed attempts")
    else
      (s1, false,
        "Invalid code. " ++ toString (s1.max_failed_attempts - s1.failed_attempts)
          ++ " attempts remaining")

/-- `_process_biometric_input`.  When an authenticated user triggers
while the state is neither LOCKED nor UNLOCKED, the Python function
falls off the end and returns `None`: that outcome is `none` here. -/
def process_biometric_input (s : FSM) (now : Int) (biometric_data : String) :
    FSM × Option (Bool × String) :=
  match authenticate_biometric s biometric_data with
  | some user =>
    if s.current_state = LockState.LOCKED then
      let r := transition_to s now "unlock" ("Biometric unlock by " ++ user)
      (r.1, some (r.2, if r.2 then "Biometric unlock by " ++ user else "Unlock failed"))
    else if s.current_state = LockState.UNLOCKED then
      let r := transition_to s now "lock" ("Biometric lock by " ++ user)
      (r.1, some (r.2, if r.2 then "Biometric lock by " ++ user else "Lock failed"))
    else (s, none)
  | none =>
    ({ s with failed_attempts := s.failed_attempts + 1 },
      some (false, "Biometric authentication failed"))

/-- `_process_proximity_trigger`. -/
def process_proximity_trigger (s : FSM) (now : Int) (user_id : String) :
    FSM × Bool × String :=
  match dictGet s.authorized_users user_id with
  | some ud =>
    if ud.level.value ≥ SecurityLevel.USER.value then
      if s.current_state = LockState.LOCKED then
        let r := transition_to s now "unlock" ("Proximity unlock by " ++ user_id)
        (r.1, r.2, if r.2 then "Proximity unlock by " ++ user_id else "Unlock failed")
      else (s, false, "Unauthorized proximity access")
    else (s, false, "Unauthorized proximity access")
  | none => (s, false, "Unauthorized proximity access")

/-- `_process_mobile_app_command`. -/
def process_mobile_app_command (s : FSM) (now : Int) (command user_id : String) :
    FSM × Bool × String :=
  match dictGet s.authorized_users user_id with
  | none => (s, false, "Unauthorized user")
  | some ud =>
    if command = "unlock" ∧ s.current_state = LockState.LOCKED then
      let r := transition_to s now "unlock" ("Mobile app unlock by " ++ user_id)
      (r.1, r.2, if r.2 then "Mobile unlock by " ++ user_id else "Unlock failed")
    else if command = "lock" ∧ s.current_state = LockState.UNLOCKED then
      let r := transition_to s now "lock" ("Mobile app lock by " ++ user_id)
      (r.1, r.2, if r.2 then "Mobile lock by " ++ user_id else "Lock failed")
    else if command = "arm" ∧ ud.level.value ≥ SecurityLevel.USER.value then
      let r := transition_to s now "arm" ("System armed by " ++ user_id)
      (r.1, r.2, if r.2 then "System armed by " ++ user_id else "Arm failed")
    else if command = "disarm" ∧ ud.level.value ≥ SecurityLevel.USER.value then
      let r := transition_to s now "disarm" ("System disarmed by " ++ user_id)
      (r.1, r.2, if r.2 then "System disarmed by " ++ user_id else "Disarm failed")
    else (s, false, "Invalid command or insufficient permissions: " ++ command)

/-- `_process_physical_key`. -/
def process_physical_key (s : FSM) (now : Int) : FSM × Bool × String :=
  if s.current_state = LockState.LOCKED then
    let r := transition_to s now "unlock" "Physical key unlock"
    (r.1, r.2, if r.2 then "Physical key unlock" else "Unlock failed")
  else if s.current_state = LockState.UNLOCKED then
    let r := transition_to s now "lock" "Physical key lock"
    (r.1, r.2, if r.2 then "Physical key lock" else "Lock failed")
  else (s, false, "Physical key not applicable in current state")

/-- `_process_emergency_trigger`. -/
def process_emergency_trigger (s : FSM) (now : Int) (emergency_type : String) :
    FSM × Bool × String :=
  if emergency_type = "fire_alarm" then
    let r := transition_to s now "emergency" "Fire alarm emergency unlock"
    (r.1, r.2,
      if r.2 then "Emergency unlock due to fire alarm" else "Emergency unlock failed")
  else if emergency_type = "medical" then
    let r := transition_to s now "emergency" "Medical emergency unlock"
    (r.1, r.2,
      if r.2 then "Emergency unlock for medical emergency" else "Emergency unlock failed")
  else if emergency_type = "power_failure" then
    let r := transition_to s now "emergency" "Power failure emergency unlock"
    (r.1, r.2,
      if r.2 then "Emergency unlock due to power failure" else "Emergency unlock failed")
  else (s, false, "Unknown emergency type: " ++ emergency_type)

/-- `_process_system_event`. -/
def process_system_event (s : FSM) (now : Int) (event : String) :
    FSM × Bool × String :=
  if event = "auto_lock" ∧ s.current_state = LockState.UNLOCKED then
    if (match s.last_unlock_time with
        | some t => decide (now - t ≥ s.auto_lock_delay)
        | none => false) then
      let r := transition_to s now "auto_lock" "Auto-lock timeout"
      (r.1, r.2, if r.2 then "Auto-lock engaged" else "Auto-lock failed")
    else (s, false, "Unknown system event: " ++ event)
  else if event = "low_battery" ∧ s.battery_level < 20 then
    let r := transition_to s now "low_battery" "Battery level low"
    (r.1, r.2, if r.2 then "Low battery warning" else "Battery warning failed")
  else if event = "maintenance_mode" then
    let r := transition_to s now "maintenance" "Scheduled maintenance"
    (r.1, r.2, if r.2 then "Maintenance mode activated" else "Maintenance mode failed")
  else if event = "connectivity_lost" then
    let r := transition_to s now "offline" "Network connection lost"
    (r.1, r.2, if r.2 then "System offline" else "Offline transition failed")
  else (s, false, "Unknown system event: " ++ event)

/-- `_process_sensor_event`. -/
def process_sensor_event (s : FSM) (now : Int) (sensor : String)
    (value : Option Bool) : FSM × Bool × String :=
  if sensor = "tamper_sensor" ∧ pyTruthy value then
    let r := transition_to s now "tamper" "Tampering detected by sensor"
    (r.1, r.2, if r.2 then "Tamper alert activated" else "Tamper alert failed")
  else if sensor = "motion_sensor" ∧ pyTruthy value
      ∧ s.current_state = LockState.ARMED then
    let r := transition_to s now "intrusion" "Motion detected while armed"
    (r.1, r.2, if r.2 then "Intrusion detected" else "Intrusion detection failed")
  else if sensor = "door_sensor" ∧ ¬ pyTruthy value then
    if s.current_state = LockState.LOCKED then
      let r := transition_to s now "tamper" "Door opened while locked"
      (r.1, r.2, if r.2 then "Unauthorized door opening" else "Door sensor alert failed")
    else
      (s, false,
        "No action for sensor " ++ sensor ++ " with value " ++ pyStrValue value)
  else
    (s, false, "No action for sensor " ++ sensor ++ " with value " ++ pyStrValue value)

/-- The Python-level outcome of one `process_trigger` call: a returned
`(bool, str)` tuple, a bare `None` return, or an uncaught exception. -/
inductive PyResult where
  | ret (ok : Bool) (msg : String)
  | retNone
  | exn (msg : String)
  deriving DecidableEq, Repr

/-- `process_trigger(trigger_type, data)`: lockout gate, unconditional
sensor/environment perturbation, then dispatch.  The `SCHEDULE` branch
calls `self._process_scheduled_event`, a method that does not exist
anywhere in the class, so it raises `AttributeError`; the fall-through
for `VOICE_COMMAND`, `GEOFENCE` and `ADMIN` returns the unknown-trigger
tuple. -/
def process_trigger (s : FSM) (now : Int) (noise : Noise)
    (trigger_type : TriggerType) (data : Payload) : FSM × PyResult :=
  let g := is_in_lockout s now
  if g.2 then (g.1, .ret false "System is in lockout mode")
  else
    let s1 := update_sensors g.1 noise trigger_type
    match trigger_type with
    | .KEYPAD =>
      let r := process_keypad_input s1 now data.code
      (r.1, .ret r.2.1 r.2.2)
    | .BIOMETRIC =>
      let r := process_biometric_input s1 now data.biometric_data
      match r.2 with
      | some (ok, msg) => (r.1, .ret ok msg)
      | none => (r.1, .retNone)
    | .PROXIMITY =>
      let r := process_proximity_trigger s1 now data.user_id
      (r.1, .ret r.2.1 r.2.2)
    | .MOBILE_APP =>
      let r := process_mobile_app_command s1 now data.command data.user_id
      (r.1, .ret r.2.1 r.2.2)
    | .PHYSICAL_KEY =>
      let r := process_physical_key s1 now
      (r.1, .ret r.2.1 r.2.2)
    | .SCHEDULE =>
      (s1, .exn "AttributeError: _process_scheduled_event")
    | .EMERGENCY =>
      let r := process_emergency_trigger s1 now data.emergency_type
      (r.1, .ret r.2.1 r.2.2)
    | .SYSTEM =>
      let r := process_system_event s1 now data.event
      (r.1, .ret r.2.1 r.2.2)
    | .SENSOR =>
      let r := process_sensor_event s1 now data.sensor data.value
      (r.1, .ret r.2.1 r.2.2)
    | _ => (s1, .ret false "Unknown trigger type")

/-- `add_user`: build the record (the `"expires"` key is set only when an
expiry is passed) and assign it into the dict, replacing any existing
binding of the id. -/
def add_user (s : FSM) (user_id : String) (level : SecurityLevel) (code : String)
    (biometric : Option String) (expires : Option Int) : FSM :=
  let user_data : UserData :=
    { level := level, code := code, biometric := biometric, expires := expires }
  { s with authorized_users := dictSet s.authorized_users user_id user_data }

/-- `remove_user`: delete any id other than the reserved `"admin"`. -/
def remove_user (s : FSM) (user_id : String) : FSM × Bool :=
  if (dictGet s.authorized_users user_id).isSome ∧ user_id ≠ "admin" then
    ({ s with authorized_users :=
        s.authorized_users.filter (fun p => decide (p.1 ≠ user_id)) }, true)
  else (s, false)

/-- `reset_security(admin_code)`. -/
def reset_security (s : FSM) (now : Int) (admin_code : String) : FSM × Bool :=
  if authenticate_code s now admin_code = some "admin" then
    let s1 := { s with failed_attempts := 0, lockout_start_time := none,
                       intrusion_detected := false }
    let s2 :=
      if s1.current_state = LockState.LOCKOUT ∨ s1.current_state = LockState.TAMPERED
      then (transition_to s1 now "reset" "Admin security reset").1
      else s1
    (s2, true)
  else (s, false)

/-- The sensor dict as initialized by `__init__`. -/
def initSensors : SensorSet :=
  { door_sensor := true
    motion_sensor := false
    proximity_sensor := false
    tamper_sensor := false
    sound_sensor := 0
    light_sensor := 50 }

/-- The engine as built by `SmartDoorLockFSM.__init__` at time `t0`
(timestamps in seconds): state DISARMED, battery 85.0, temperature 22.5,
the three seed users (the guest carrying a 24-hour expiry), a 15-minute
lockout duration, a 30-second auto-lock delay, and the initial history
entry logged by the constructor. -/
def initFSM (t0 : Int) : FSM :=
  log_state_change
    { current_state := .DISARMED
      previous_state := none
      state_history := []
      battery_level := 85
      temperature := 45 / 2
      connectivity_status := true
      last_maintenance := t0 - 30 * 86400
      failed_attempts := 0
      max_failed_attempts := 3
      lockout_duration := 15 * 60
      lockout_start_time := none
      intrusion_detected := false
      authorized_users :=
        [ ("admin", { level := .ADMIN, code := "1234",
                      biometric := some "admin_print", expires := none }),
          ("user1", { level := .USER, code := "5678",
                      biometric := some "user1_print", expires := none }),
          ("guest", { level := .GUEST, code := "0000",
                      biometric := none, expires := some (t0 + 24 * 3600) }) ]
      sensors := initSensors
      auto_lock_delay := 30
      last_unlock_time := none }
    t0 none .DISARMED "System initialization"

/-- One serialized mutating call on the engine: a processed trigger, a
user-registry operation, or an administrative reset. -/
inductive Step : FSM → FSM → Prop where
  | trigger (s : FSM) (now : Int) (noise : Noise) (tt : TriggerType) (data : Payload) :
      Step s (process_trigger s now noise tt data).1
  | addUser (s : FSM) (uid : String) (level : SecurityLevel) (code : String)
      (bio : Option String) (exp : Option Int) :
      Step s (add_user s uid level code bio exp)
  | removeUser (s : FSM) (uid : String) : Step s (remove_user s uid).1
  | reset (s : FSM) (now : Int) (code : String) : Step s (reset_security s now code).1

/-- Engine states reachable from a freshly constructed engine by any
sequence of mutating calls. -/
inductive Reachable : FSM → Prop where
  | init (t0 : Int) : Reachable (initFSM t0)
  | step {s s' : FSM} : Reachable s → Step s s' → Reachable s'

/-- A zero noise record, used to instantiate universally quantified
theorems at concrete inputs. -/
def noise0 : Noise :=
  { battery_drain := 0, temp_delta := 0, resample := false,
    motion := false, sound := 0, light := 0 }

/-! ### Lemmas about the transition table and `_transition_to` -/

theorem lookup_some_mem {s : LockState} {e : String} {v : LockState × String}
    (h : lookupTransition s e = some v) : ((s, e), v) ∈ transitionMatrix := by
  unfold lookupTransition at h
  cases hf : transitionMatrix.find? (fun p => decide (p.1 = (s, e))) with
  | none =>
    rw [hf] at h
    exact Option.noConfusion h
  | some p =>
    rw [hf] at h
    simp only [Option.map_some'] at h
    have hp' := List.find?_some hf
    have hp : p.1 = (s, e) := by simpa using hp'
    have hmem := List.mem_of_find?_eq_some hf
    have hv : p.2 = v := by injection h
    rw [← hp, ← hv, Prod.mk.eta]
    exact hmem

theorem matrix_targets_ne_lockout :
    ∀ p ∈ transitionMatrix, p.2.1 ≠ LockState.LOCKOUT := by decide

theorem lookup_lockout_none :
    ∀ s : LockState, lookupTransition s "lockout" = none := by decide

theorem transition_to_none {s : FSM} {e : String} (now : Int) (reason : String)
    (h : lookupTransition s.current_state e = none) :
    transition_to s now e reason = (s, false) := by
  unfold transition_to
  rw [h]

theorem handle_entry_current (s : FSM) (now : Int) (st : LockState) :
    (handle_state_entry s now st).current_state = s.current_state := by
  cases st <;> rfl

theorem handle_entry_hist (s : FSM) (now : Int) (st : LockState) :
    (handle_state_entry s now st).state_history = s.state_history := by
  cases st <;> rfl

theorem handle_entry_failed (s : FSM) (now : Int) (st : LockState) :
    (handle_state_entry s now st).failed_attempts = s.failed_attempts := by
  cases st <;> rfl

theorem handle_entry_lockout_start (s : FSM) (now : Int) (st : LockState)
    (hne : st ≠ LockState.LOCKOUT) :
    (handle_state_entry s now st).lockout_start_time = s.lockout_start_time := by
  cases st <;> first | rfl | exact absurd rfl hne

theorem log_hist_eq (s : FSM) (now : Int) (fs : Option LockState)
    (ts : LockState) (r : String) :
    (log_state_change s now fs ts r).state_history
      = (s.state_history ++ [mkEntry s now fs ts r]).drop
          (s.state_history.length + 1 - 1000) := by
  show (if (s.state_history ++ [mkEntry s now fs ts r]).length > 1000
        then (s.state_history ++ [mkEntry s now fs ts r]).drop
              ((s.state_history ++ [mkEntry s now fs ts r]).length - 1000)
        else s.state_history ++ [mkEntry s now fs ts r]) = _
  rw [List.length_append, List.length_singleton]
  split
  · rfl
  · next h =>
    have h0 : s.state_history.length + 1 - 1000 = 0 := by omega
    rw [h0, List.drop_zero]

theorem log_hist_le (s : FSM) (now : Int) (fs : Option LockState)
    (ts : LockState) (r : String) (hs : s.state_history.length ≤ 1000) :
    (log_state_change s now fs ts r).state_history.length ≤ 1000 := by
  rw [log_hist_eq, List.length_drop, List.length_append, List.length_singleton]
  omega

theorem transition_to_current (s : FSM) (now : Int) (e r : String) :
    ((transition_to s now e r).1).current_state
      = match lookupTransition s.current_state e with
        | some v => v.1
        | none => s.current_state := by
  unfold transition_to
  cases h : lookupTransition s.current_state e with
  | none => rfl
  | some v =>
    obtain ⟨ns, dr⟩ := v
    dsimp only
    rw [handle_entry_current]

theorem transition_to_not_lockout {s : FSM} (now : Int) (e r : String)
    (hs : s.current_state ≠ LockState.LOCKOUT) :
    ((transition_to s now e r).1).current_state ≠ LockState.LOCKOUT := by
  rw [transition_to_current]
  split
  · next v hv => exact matrix_targets_ne_lockout _ (lookup_some_mem hv)
  · exact hs

theorem transition_to_hist_le {s : FSM} (now : Int) (e r : String)
    (hs : s.state_history.length ≤ 1000) :
    ((transition_to s now e r).1).state_history.length ≤ 1000 := by
  unfold transition_to
  cases h : lookupTransition s.current_state e with
  | none => exact hs
  | some v =>
    obtain ⟨ns, dr⟩ := v
    dsimp only
    rw [handle_entry_hist]
    exact log_hist_le _ _ _ _ _ hs

theorem transition_to_failed (s : FSM) (now : Int) (e r : String) :
    ((transition_to s now e r).1).failed_attempts = s.failed_attempts := by
  unfold transition_to
  cases h : lookupTransition s.current_state e with
  | none => rfl
  | some v =>
    obtain ⟨ns, dr⟩ := v
    dsimp only
    rw [handle_entry_failed]
    rfl

theorem transition_to_lockout_start (s : FSM) (now : Int) (e r : String) :
    ((transition_to s now e r).1).lockout_start_time = s.lockout_start_time := by
  unfold transition_to
  cases h : lookupTransition s.current_state e with
  | none => rfl
  | some v =>
    obtain ⟨ns, dr⟩ := v
    dsimp only
    rw [handle_entry_lockout_start _ _ _ (matrix_targets_ne_lockout _ (lookup_some_mem h))]
    rfl

/-! ### The invariant preserved by every mutating call -/

/-- The inductive invariant: the current state is never `LOCKOUT`, and
the audit history is within its 1000-entry capacity. -/
def Inv (s : FSM) : Prop :=
  s.current_state ≠ LockState.LOCKOUT ∧ s.state_history.length ≤ 1000

theorem transition_to_inv {s : FSM} (now : Int) (e r : String) (hs : Inv s) :
    Inv ((transition_to s now e r).1) :=
  ⟨transition_to_not_lockout now e r hs.1, transition_to_hist_le now e r hs.2⟩

theorem keypad_inv {s : FSM} (now : Int) (code : String) (hs : Inv s) :
    Inv (process_keypad_input s now code).1 := by
  unfold process_keypad_input
  cases h : authenticate_code s now code with
  | some user =>
    dsimp only
    split
    · split
      · exact transition_to_inv now _ _ hs
      · exact transition_to_inv now _ _ hs
    · split
      · exact transition_to_inv now _ _ hs
      · split
        · split
          · exact transition_to_inv now _ _ hs
          · exact transition_to_inv now _ _ hs
        · exact hs
  | none =>
    dsimp only
    split
    · exact transition_to_inv now _ _ hs
    · exact hs

theorem biometric_inv {s : FSM} (now : Int) (d : String) (hs : Inv s) :
    Inv (process_biometric_input s now d).1 := by
  unfold process_biometric_input
  cases h : authenticate_biometric s d with
  | some user =>
    dsimp only
    split
    · exact transition_to_inv now _ _ hs
    · split
      · exact transition_to_inv now _ _ hs
      · exact hs
  | none => exact hs

theorem proximity_inv {s : FSM} (now : Int) (uid : String) (hs : Inv s) :
    Inv (process_proximity_trigger s now uid).1 := by
  unfold process_proximity_trigger
  cases h : dictGet s.authorized_users uid with
  | some ud =>
    dsimp only
    split
    · split
      · exact transition_to_inv now _ _ hs
      · exact hs
    · exact hs
  | none => exact hs

theorem mobile_inv {s : FSM} (now : Int) (cmd uid : String) (hs : Inv s) :
    Inv (process_mobile_app_command s now cmd uid).1 := by
  unfold process_mobile_app_command
  cases h : dictGet s.authorized_users uid with
  | none => exact hs
  | some ud =>
    dsimp only
    split
    · exact transition_to_inv now _ _ hs
    · split
      · exact transition_to_inv now _ _ hs
      · split
        · exact transition_to_inv now _ _ hs
        · split
          · exact transition_to_inv now _ _ hs
          · exact hs

theorem physical_key_inv {s : FSM} (now : Int) (hs : Inv s) :
    Inv (process_physical_key s now).1 := by
  unfold process_physical_key
  split
  · exact transition_to_inv now _ _ hs
  · split
    · exact transition_to_inv now _ _ hs
    · exact hs

theorem emergency_inv {s : FSM} (now : Int) (et : String) (hs : Inv s) :
    Inv (process_emergency_trigger s now et).1 := by
  unfold process_emergency_trigger
  split
  · exact transition_to_inv now _ _ hs
  · split
    · exact transition_to_inv now _ _ hs
    · split
      · exact transition_to_inv now _ _ hs
      · exact hs

theorem system_inv {s : FSM} (now : Int) (ev : String) (hs : Inv s) :
    Inv (process_system_event s now ev).1 := by
  unfold process_system_event
  split
  · split
    · exact transition_to_inv now _ _ hs
    · exact hs
  · split
    · exact transition_to_inv now _ _ hs
    · split
      · exact transition_to_inv now _ _ hs
      · split
        · exact transition_to_inv now _ _ hs
        · exact hs

theorem sensor_inv {s : FSM} (now : Int) (sn : String) (v : Option Bool)
    (hs : Inv s) : Inv (process_sensor_event s now sn v).1 := by
  unfold process_sensor_event
  split
  · exact transition_to_inv now _ _ hs
  · split
    · exact transition_to_inv now _ _ hs
    · split
      · split
        · exact transition_to_inv now _ _ hs
        · exact hs
      · exact hs

theorem is_in_lockout_not {s : FSM} (now : Int)
    (hs : s.current_state ≠ LockState.LOCKOUT) :
    is_in_lockout s now = (s, false) := by
  unfold is_in_lockout
  rw [if_neg hs]

theorem update_sensors_inv {s : FSM} (noise : Noise) (tt : TriggerType)
    (hs : Inv s) : Inv (update_sensors s noise tt) := by
  unfold update_sensors
  cases tt <;> dsimp only <;> split <;> exact hs

theorem process_trigger_inv {s : FSM} (now : Int) (noise : Noise)
    (tt : TriggerType) (data : Payload) (hs : Inv s) :
    Inv (process_trigger s now noise tt data).1 := by
  unfold process_trigger
  rw [is_in_lockout_not now hs.1]
  dsimp only
  rw [if_neg Bool.false_ne_true]
  have hu : Inv (update_sensors s noise tt) := update_sensors_inv noise tt hs
  cases tt
  case KEYPAD => exact keypad_inv now _ hu
  case BIOMETRIC =>
    dsimp only
    split
    · exact biometric_inv now _ hu
    · exact biometric_inv now _ hu
  case PROXIMITY => exact proximity_inv now _ hu
  case MOBILE_APP => exact mobile_inv now _ _ hu
  case PHYSICAL_KEY => exact physical_key_inv now hu
  case VOICE_COMMAND => exact hu
  case SCHEDULE => exact hu
  case GEOFENCE => exact hu
  case EMERGENCY => exact emergency_inv now _ hu
  case ADMIN => exact hu
  case SYSTEM => exact system_inv now _ hu
  case SENSOR => exact sensor_inv now _ _ hu

theorem add_user_inv {s : FSM} (uid : String) (level : SecurityLevel)
    (code : String) (bio : Option String) (exp : Option Int) (hs : Inv s) :
    Inv (add_user s uid level code bio exp) := hs

theorem remove_user_inv {s : FSM} (uid : String) (hs : Inv s) :
    Inv (remove_user s uid).1 := by
  unfold remove_user
  split
  · exact hs
  · exact hs

theorem reset_security_inv {s : FSM} (now : Int) (code : String) (hs : Inv s) :
    Inv (reset_security s now code).1 := by
  unfold reset_security
  split
  · dsimp only
    split
    · exact transition_to_inv now _ _ hs
    · exact hs
  · exact hs

theorem init_inv (t0 : Int) : Inv (initFSM t0) := by
  constructor
  · intro h
    exact LockState.noConfusion h
  · rw [show (initFSM t0).state_history.length
        = (log_state_change
            { current_state := .DISARMED, previous_state := none, state_history := [],
              battery_level := 85, temperature := 45 / 2, connectivity_status := true,
              last_maintenance := t0 - 30 * 86400, failed_attempts := 0,
              max_failed_attempts := 3, lockout_duration := 15 * 60,
              lockout_start_time := none, intrusion_detected := false,
              authorized_users :=
                [ ("admin", { level := .ADMIN, code := "1234",
                              biometric := some "admin_print", expires := none }),
                  ("user1", { level := .USER, code := "5678",
                              biometric := some "user1_print", expires := none }),
                  ("guest", { level := .GUEST, code := "0000",
                              biometric := none, expires := some (t0 + 24 * 3600) }) ],
              sensors := initSensors, auto_lock_delay := 30,
              last_unlock_time := none }
            t0 none .DISARMED "System initialization").state_history.length from rfl]
    rw [log_hist_eq]
    simp

/-! ### The spec's transition table, for the refinement claim -/

/-- Modelled from the spec: the 25 rows of the §4.1 transition table
(state, event → next state), written from the spec text, to be compared
with the table built by `_build_transition_matrix`. -/
def specTable : List ((LockState × String) × LockState) :=
  [ ((.DISARMED, "lock"), .LOCKED),
    ((.DISARMED, "unlock"), .UNLOCKED),
    ((.DISARMED, "arm"), .ARMED),
    ((.LOCKED, "unlock"), .UNLOCKED),
    ((.UNLOCKED, "lock"), .LOCKED),
    ((.UNLOCKED, "auto_lock"), .LOCKED),
    ((.ARMED, "disarm"), .DISARMED),
    ((.ARMED, "intrusion"), .TAMPERED),
    ((.LOCKED, "tamper"), .TAMPERED),
    ((.UNLOCKED, "tamper"), .TAMPERED),
    ((.TAMPERED, "reset"), .LOCKED),
    ((.LOCKOUT, "timeout"), .LOCKED),
    ((.LOCKED, "maintenance"), .MAINTENANCE),
    ((.UNLOCKED, "maintenance"), .MAINTENANCE),
    ((.MAINTENANCE, "exit_maintenance"), .LOCKED),
    ((.LOCKED, "low_battery"), .LOW_BATTERY),
    ((.LOW_BATTERY, "battery_replaced"), .LOCKED),
    ((.LOCKED, "emergency"), .EMERGENCY_UNLOCK),
    ((.TAMPERED, "admin_override"), .ADMIN_OVERRIDE),
    ((.LOCKOUT, "admin_override"), .ADMIN_OVERRIDE),
    ((.ADMIN_OVERRIDE, "restore"), .LOCKED),
    ((.LOCKED, "guest_unlock"), .GUEST_ACCESS),
    ((.GUEST_ACCESS, "guest_timeout"), .LOCKED),
    ((.LOCKED, "offline"), .OFFLINE),
    ((.OFFLINE, "online"), .LOCKED) ]

/-- Lookup in the spec-modelled table. -/
def lookupSpec (s : LockState) (e : String) : Option LockState :=
  (specTable.find? (fun p => decide (p.1 = (s, e)))).map (fun p => p.2)

theorem find_map_assoc {α β γ : Type} [DecidableEq α] (g : β → γ) (k : α) :
    ∀ l : List (α × β),
      ((l.find? (fun p => decide (p.1 = k))).map (fun p => p.2)).map g
        = ((l.map (fun p => (p.1, g p.2))).find? (fun p => decide (p.1 = k))).map
            (fun p => p.2) := by
  intro l
  induction l with
  | nil => rfl
  | cons a t ih =>
    by_cases h : a.1 = k <;> simp [List.find?_cons, h, ih]

theorem matrix_map_spec :
    transitionMatrix.map (fun p => (p.1, p.2.1)) = specTable := by rfl

theorem spec_keys_eq :
    specTable.map (fun p => p.1) = transitionMatrix.map (fun p => p.1) := by rfl

theorem lookup_refines (s : LockState) (e : String) :
    (lookupTransition s e).map (fun p => p.1) = lookupSpec s e := by
  have h := find_map_assoc (fun v : LockState × String => v.1) (k := (s, e))
    transitionMatrix
  unfold lookupTransition lookupSpec
  rw [← matrix_map_spec]
  exact h

/-! ### Dictionary lemmas for the user registry -/

theorem dictGet_map_replace (k : String) (v : UserData) :
    ∀ l : List (String × UserData), l.any (fun p => decide (p.1 = k)) = true →
      dictGet (l.map (fun p => if p.1 = k then (k, v) else p)) k = some v := by
  intro l
  induction l with
  | nil => intro h; exact absurd h (by simp)
  | cons a t ih =>
    intro h
    by_cases ha : a.1 = k
    · simp [dictGet, List.find?_cons, ha]
    · have ht : t.any (fun p => decide (p.1 = k)) = true := by
        simpa [List.any_cons, ha] using h
      simpa [dictGet, List.find?_cons, ha] using ih ht

theorem dictGet_append_self (k : String) (v : UserData) :
    ∀ l : List (String × UserData), l.any (fun p => decide (p.1 = k)) = false →
      dictGet (l ++ [(k, v)]) k = some v := by
  intro l
  induction l with
  | nil => intro _; simp [dictGet, List.find?_cons]
  | cons a t ih =>
    intro h
    have ha : ¬ (a.1 = k) := by
      intro hak
      simp [List.any_cons, hak] at h
    have ht : t.any (fun p => decide (p.1 = k)) = false := by
      simpa [List.any_cons, ha] using h
    simpa [dictGet, List.find?_cons, ha] using ih ht

theorem dictGet_set_self (l : List (String × UserData)) (k : String) (v : UserData) :
    dictGet (dictSet l k v) k = some v := by
  unfold dictSet
  split
  · next h => exact dictGet_map_replace k v l h
  · next h =>
    exact dictGet_append_self k v l (Bool.eq_false_iff.mpr h)

theorem dictGet_cons_pos (a : String × UserData) (l : List (String × UserData))
    (k : String) (h : a.1 = k) : dictGet (a :: l) k = some a.2 := by
  unfold dictGet
  rw [List.find?_cons_of_pos _ (by simpa using h)]
  rfl

theorem dictGet_cons_neg (a : String × UserData) (l : List (String × UserData))
    (k : String) (h : ¬ a.1 = k) : dictGet (a :: l) k = dictGet l k := by
  unfold dictGet
  rw [List.find?_cons_of_neg _ (by simpa using h)]

theorem dictGet_map_other (k k2 : String) (v : UserData) (hne : k2 ≠ k) :
    ∀ l : List (String × UserData),
      dictGet (l.map (fun p => if p.1 = k then (k, v) else p)) k2 = dictGet l k2 := by
  intro l
  induction l with
  | nil => rfl
  | cons a t ih =>
    rw [List.map_cons]
    by_cases ha : a.1 = k
    · rw [if_pos ha]
      have h1 : ¬ ((k, v).1 = k2) := fun h => hne h.symm
      have h2 : ¬ (a.1 = k2) := fun h => hne ((ha.symm.trans h).symm)
      rw [dictGet_cons_neg _ _ _ h1, dictGet_cons_neg _ _ _ h2]
      exact ih
    · rw [if_neg ha]
      by_cases ha2 : a.1 = k2
      · rw [dictGet_cons_pos _ _ _ ha2, dictGet_cons_pos _ _ _ ha2]
      · rw [dictGet_cons_neg _ _ _ ha2, dictGet_cons_neg _ _ _ ha2]
        exact ih

theorem dictGet_append_other (k k2 : String) (v : UserData) (hne : k2 ≠ k) :
    ∀ l : List (String × UserData), dictGet (l ++ [(k, v)]) k2 = dictGet l k2 := by
  intro l
  induction l with
  | nil =>
    show dictGet [(k, v)] k2 = dictGet [] k2
    rw [dictGet_cons_neg _ _ _ (fun h => hne h.symm)]
  | cons a t ih =>
    rw [List.cons_append]
    by_cases ha : a.1 = k2
    · rw [dictGet_cons_pos _ _ _ ha, dictGet_cons_pos _ _ _ ha]
    · rw [dictGet_cons_neg _ _ _ ha, dictGet_cons_neg _ _ _ ha]
      exact ih

theorem dictGet_set_other (l : List (String × UserData)) (k k2 : String)
    (v : UserData) (hne : k2 ≠ k) :
    dictGet (dictSet l k v) k2 = dictGet l k2 := by
  unfold dictSet
  split
  · exact dictGet_map_other k k2 v hne l
  · exact dictGet_append_other k k2 v hne l

theorem dictSet_length_of_mem (l : List (String × UserData)) (k : String)
    (v : UserData) (h : l.any (fun p => decide (p.1 = k)) = true) :
    (dictSet l k v).length = l.length := by
  unfold dictSet
  rw [if_pos h]
  exact List.length_map _ _

theorem keys_map_replace (k : String) (v : UserData) :
    ∀ l : List (String × UserData),
      (l.map (fun p => if p.1 = k then (k, v) else p)).map (fun p => p.1)
        = l.map (fun p => p.1) := by
  intro l
  induction l with
  | nil => rfl
  | cons a t ih =>
    by_cases ha : a.1 = k <;> simp [ha, ih]

theorem dictSet_keys_nodup (l : List (String × UserData)) (k : String)
    (v : UserData) (h : (l.map (fun p => p.1)).Nodup) :
    ((dictSet l k v).map (fun p => p.1)).Nodup := by
  unfold dictSet
  split
  · rw [keys_map_replace]
    exact h
  · next hmem =>
    rw [List.map_append]
    have hnk : ∀ p ∈ l, ¬ (p.1 = k) := by
      intro p hp hpk
      exact hmem (List.any_eq_true.mpr ⟨p, hp, by simpa using hpk⟩)
    refine List.Nodup.append h (List.nodup_singleton k) ?_
    intro a ha hb
    simp only [List.map_singleton, List.mem_singleton] at hb
    obtain ⟨p, hp, rfl⟩ := List.mem_map.mp ha
    exact hnk p hp hb

/-! ### Lemmas about `_authenticate_code` -/

theorem authCodeList_sound (now : Int) (code : String) :
    ∀ l : List (String × UserData), ∀ uid,
      authCodeList now code l = some uid →
      ∃ ud, (uid, ud) ∈ l ∧ ud.code = code ∧ ∀ e, ud.expires = some e → now ≤ e := by
  intro l
  induction l with
  | nil => intro uid h; exact Option.noConfusion h
  | cons a t ih =>
    intro uid h
    simp only [authCodeList] at h
    by_cases hc : a.2.code = code
    · rw [if_pos hc] at h
      cases he : a.2.expires with
      | some e =>
        rw [he] at h
        dsimp only at h
        by_cases hgt : now > e
        · rw [if_pos hgt] at h
          exact Option.noConfusion h
        · rw [if_neg hgt] at h
          obtain rfl : a.1 = uid := by injection h
          refine ⟨a.2, ?_, hc, ?_⟩
          · rw [Prod.mk.eta]
            exact List.mem_cons_self _ _
          · intro e2 he2
            rw [he] at he2
            obtain rfl : e = e2 := by injection he2
            omega
      | none =>
        rw [he] at h
        dsimp only at h
        obtain rfl : a.1 = uid := by injection h
        refine ⟨a.2, ?_, hc, ?_⟩
        · rw [Prod.mk.eta]
          exact List.mem_cons_self _ _
        · intro e2 he2
          rw [he] at he2
          exact Option.noConfusion he2
    · rw [if_neg hc] at h
      obtain ⟨ud, hm, hcc, hee⟩ := ih uid h
      exact ⟨ud, List.mem_cons_of_mem _ hm, hcc, hee⟩

theorem authCodeList_expired (now : Int) (code : String) :
    ∀ l : List (String × UserData), ∀ uid ud e,
      l.find? (fun p => decide (p.2.code = code)) = some (uid, ud) →
      ud.expires = some e → now > e →
      authCodeList now code l = none := by
  intro l
  induction l with
  | nil => intro uid ud e h; exact Option.noConfusion h
  | cons a t ih =>
    intro uid ud e hf he hgt
    by_cases hc : a.2.code = code
    · have hf2 : a = (uid, ud) := by
        rw [List.find?_cons_of_pos _ (by simpa using hc)] at hf
        injection hf
      simp only [authCodeList, if_pos hc]
      rw [show a.2 = ud from by rw [hf2]]
      rw [he]
      dsimp only
      rw [if_pos hgt]
    · rw [List.find?_cons_of_neg _ (by simpa using hc)] at hf
      simp only [authCodeList, if_neg hc]
      exact ih uid ud e hf he hgt

theorem reachable_inv {s : FSM} (h : Reachable s) : Inv s := by
  induction h with
  | init t0 => exact init_inv t0
  | step hr hst ih =>
    cases hst with
    | trigger now noise tt data => exact process_trigger_inv now noise tt data ih
    | addUser uid level code bio exp => exact add_user_inv uid level code bio exp ih
    | removeUser uid => exact remove_user_inv uid ih
    | reset now code => exact reset_security_inv now code ih

/-! ### Claim theorems -/

/-- C1: for every engine state and event such that `(current_state,
event)` is absent from the transition table, `_transition_to` returns
false and leaves the engine completely unchanged — same
`current_state`, `previous_state` and history, with no entry
appended. -/
theorem C1_absent_transition_noop (s : FSM) (now : Int) (e reason : String)
    (h : lookupTransition s.current_state e = none) :
    transition_to s now e reason = (s, false)
  ∧ ((transition_to s now e reason).1).current_state = s.current_state
  ∧ ((transition_to s now e reason).1).previous_state = s.previous_state
  ∧ ((transition_to s now e reason).1).state_history = s.state_history := by
  have h0 := transition_to_none now reason h
  refine ⟨h0, ?_, ?_, ?_⟩ <;> rw [h0]

/-- C1 witness: DISARMED has no `timeout` entry; a fresh engine is
unchanged by that event. -/
theorem C1_absent_transition_noop_witness :
    lookupTransition (initFSM 0).current_state "timeout" = none
  ∧ transition_to (initFSM 0) 0 "timeout" "" = (initFSM 0, false) :=
  ⟨by decide, (C1_absent_transition_noop (initFSM 0) 0 "timeout" "" (by decide)).1⟩

/-- C2: the transition table built by `_build_transition_matrix` agrees
pointwise with the 25-row table of spec §4.1: every spec row is present
with the listed target, every lookup hit is a spec row, the spec table
has exactly 25 rows, and for every `(current_state, event)` pair outside
the spec rows `_transition_to` returns false and changes nothing. -/
theorem C2_table_exact :
    (∀ (s : LockState) (e : String),
       (lookupTransition s e).map (fun p => p.1) = lookupSpec s e)
  ∧ (∀ p ∈ specTable, (lookupTransition p.1.1 p.1.2).map (fun q => q.1) = some p.2)
  ∧ specTable.length = 25
  ∧ (∀ (s : FSM) (now : Int) (e r : String),
       (s.current_state, e) ∉ specTable.map (fun p => p.1) →
       transition_to s now e r = (s, false)) := by
  refine ⟨lookup_refines, by decide, by decide, ?_⟩
  intro s now e r hnot
  cases h : lookupTransition s.current_state e with
  | none => exact transition_to_none now r h
  | some v =>
    exfalso
    apply hnot
    rw [spec_keys_eq]
    exact List.mem_map_of_mem _ (lookup_some_mem h)

/-- C2 witness: the first spec row is served by the source table, and a
pair outside the table (`(DISARMED, lockout)`) is rejected without
effect on a fresh engine. -/
theorem C2_table_exact_witness :
    ((LockState.DISARMED, "lock"), LockState.LOCKED) ∈ specTable
  ∧ (lookupTransition .DISARMED "lock").map (fun q => q.1) = some LockState.LOCKED
  ∧ transition_to (initFSM 0) 0 "lockout" "" = (initFSM 0, false) := by
  refine ⟨by decide, ?_, ?_⟩
  · exact C2_table_exact.2.1 ((LockState.DISARMED, "lock"), LockState.LOCKED) (by decide)
  · exact C2_table_exact.2.2.2 (initFSM 0) 0 "lockout" "" (by decide)

/-- C3: the `lockout` event is a no-op from every state (no `(state,
"lockout")` table entry exists), and consequently no engine state
reachable from a fresh engine by any sequence of `process_trigger`,
`add_user`, `remove_user` and `reset_security` calls ever has
`current_state = LOCKOUT`. -/
theorem C3_lockout_unreachable :
    (∀ (s : FSM) (now : Int) (reason : String),
       transition_to s now "lockout" reason = (s, false))
  ∧ (∀ s : FSM, Reachable s → s.current_state ≠ LockState.LOCKOUT) := by
  constructor
  · intro s now reason
    exact transition_to_none now reason (lookup_lockout_none s.current_state)
  · intro s h
    exact (reachable_inv h).1

/-- C3 witness: the lockout attempt is a no-op on a fresh engine, whose
state is not LOCKOUT. -/
theorem C3_lockout_unreachable_witness :
    transition_to (initFSM 0) 0 "lockout" "Too many failed attempts"
      = (initFSM 0, false)
  ∧ (initFSM 0).current_state ≠ LockState.LOCKOUT :=
  ⟨C3_lockout_unreachable.1 (initFSM 0) 0 _,
   C3_lockout_unreachable.2 (initFSM 0) (Reachable.init 0)⟩

/-- A concrete engine state inside an active lockout window: a fresh
engine with `current_state` forced to LOCKOUT and a start time of 0. -/
def lockoutState : FSM :=
  { initFSM 0 with current_state := LockState.LOCKOUT, lockout_start_time := some 0 }

/-- C4: whenever `process_trigger` starts while the engine is locked out
(state LOCKOUT with an unelapsed window), it returns
`(false, "System is in lockout mode")` and the engine state is returned
exactly unchanged — no sensor perturbation, no failed-attempt change, no
handler, no transition. -/
theorem C4_lockout_gate (s : FSM) (now : Int) (noise : Noise) (tt : TriggerType)
    (data : Payload) (st : Int)
    (h1 : s.current_state = LockState.LOCKOUT)
    (h2 : s.lockout_start_time = some st)
    (h3 : now - st < s.lockout_duration) :
    process_trigger s now noise tt data
      = (s, PyResult.ret false "System is in lockout mode") := by
  have hg : is_in_lockout s now = (s, true) := by
    unfold is_in_lockout
    rw [if_pos h1, h2]
    dsimp only
    rw [if_neg (not_le.mpr h3)]
  unfold process_trigger
  rw [hg]
  dsimp only
  rw [if_pos rfl]

/-- C4 witness: a keypad trigger 10 seconds into a 900-second lockout
window is rejected with the engine unchanged. -/
theorem C4_lockout_gate_witness :
    process_trigger lockoutState 10 noise0 TriggerType.KEYPAD {}
      = (lockoutState, PyResult.ret false "System is in lockout mode") :=
  C4_lockout_gate lockoutState 10 noise0 TriggerType.KEYPAD {} 0
    (by decide) (by decide) (by decide)

theorem keypad_wrong_code_spec (s : FSM) (now : Int) (code : String)
    (h : authenticate_code s now code = none) :
    ((process_keypad_input s now code).1).failed_attempts = s.failed_attempts + 1
  ∧ ((process_keypad_input s now code).1).current_state = s.current_state
  ∧ ((process_keypad_input s now code).2).1 = false
  ∧ (s.failed_attempts + 1 ≥ s.max_failed_attempts →
      ((process_keypad_input s now code).2).2
        = "System locked due to failed attempts")
  ∧ (s.failed_attempts + 1 < s.max_failed_attempts →
      ((process_keypad_input s now code).2).2
        = "Invalid code. "
            ++ toString (s.max_failed_attempts - (s.failed_attempts + 1))
            ++ " attempts remaining") := by
  have hT : transition_to { s with failed_attempts := s.failed_attempts + 1 } now
      "lockout" "Too many failed attempts"
      = ({ s with failed_attempts := s.failed_attempts + 1 }, false) :=
    transition_to_none now _ (lookup_lockout_none _)
  unfold process_keypad_input
  rw [h]
  dsimp only
  rw [hT]
  split
  · next hge =>
    have hge' : s.failed_attempts + 1 ≥ s.max_failed_attempts := hge
    refine ⟨rfl, rfl, rfl, fun _ => rfl, fun hlt => ?_⟩
    omega
  · next hge =>
    have hge' : ¬ (s.failed_attempts + 1 ≥ s.max_failed_attempts) := hge
    refine ⟨rfl, rfl, rfl, fun hge2 => ?_, fun _ => rfl⟩
    omega

theorem update_sensors_users (s : FSM) (noise : Noise) (tt : TriggerType) :
    (update_sensors s noise tt).authorized_users = s.authorized_users := by
  unfold update_sensors
  cases tt <;> dsimp only <;> split <;> rfl

theorem update_sensors_failed (s : FSM) (noise : Noise) (tt : TriggerType) :
    (update_sensors s noise tt).failed_attempts = s.failed_attempts := by
  unfold update_sensors
  cases tt <;> dsimp only <;> split <;> rfl

theorem update_sensors_current (s : FSM) (noise : Noise) (tt : TriggerType) :
    (update_sensors s noise tt).current_state = s.current_state := by
  unfold update_sensors
  cases tt <;> dsimp only <;> split <;> rfl

theorem authenticate_code_update (s : FSM) (noise : Noise) (tt : TriggerType)
    (now : Int) (code : String) :
    authenticate_code (update_sensors s noise tt) now code
      = authenticate_code s now code := by
  unfold authenticate_code
  rw [update_sensors_users]

/-- C5: a keypad trigger whose code fails to authenticate increments
`failed_attempts` by exactly one and leaves `current_state` unchanged
(the attempted lockout transition is a no-op); the call reports failure,
with the locked-out message once the new count reaches
`max_failed_attempts` and the remaining-attempts message otherwise; the
same increment and state preservation hold through `process_trigger`
when the engine is not in lockout. -/
theorem C5_keypad_failed_attempt (s : FSM) (now : Int) (code : String)
    (h : authenticate_code s now code = none) :
    ((process_keypad_input s now code).1).failed_attempts = s.failed_attempts + 1
  ∧ ((process_keypad_input s now code).1).current_state = s.current_state
  ∧ ((process_keypad_input s now code).2).1 = false
  ∧ (s.failed_attempts + 1 ≥ s.max_failed_attempts →
      ((process_keypad_input s now code).2).2
        = "System locked due to failed attempts")
  ∧ (s.failed_attempts + 1 < s.max_failed_attempts →
      ((process_keypad_input s now code).2).2
        = "Invalid code. "
            ++ toString (s.max_failed_attempts - (s.failed_attempts + 1))
            ++ " attempts remaining")
  ∧ (∀ (noise : Noise) (data : Payload), data.code = code →
       s.current_state ≠ LockState.LOCKOUT →
       ((process_trigger s now noise TriggerType.KEYPAD data).1).failed_attempts
           = s.failed_attempts + 1
       ∧ ((process_trigger s now noise TriggerType.KEYPAD data).1).current_state
           = s.current_state) := by
  obtain ⟨h1, h2, h3, h4, h5⟩ := keypad_wrong_code_spec s now code h
  refine ⟨h1, h2, h3, h4, h5, ?_⟩
  intro noise data hdc hnl
  have hau : authenticate_code (update_sensors s noise TriggerType.KEYPAD) now
      data.code = none := by
    rw [authenticate_code_update, hdc]
    exact h
  obtain ⟨g1, g2, _, _, _⟩ :=
    keypad_wrong_code_spec (update_sensors s noise TriggerType.KEYPAD) now
      data.code hau
  unfold process_trigger
  rw [is_in_lockout_not now hnl]
  dsimp only
  rw [if_neg Bool.false_ne_true]
  dsimp only
  constructor
  · rw [g1, update_sensors_failed]
  · rw [g2, update_sensors_current]

/-- C5 witness: a wrong code on a fresh engine bumps `failed_attempts`
from 0 to 1. -/
theorem C5_keypad_failed_attempt_witness :
    ((process_keypad_input (initFSM 0) 0 "9999").1).failed_attempts
      = (initFSM 0).failed_attempts + 1 :=
  (C5_keypad_failed_attempt (initFSM 0) 0 "9999" (by decide)).1

/-- C6: evaluation of `process_trigger` at the two failing inputs — a
SCHEDULE trigger raises AttributeError because the class defines no
`_process_scheduled_event` method, and a biometric trigger whose
credential authenticates while the state is DISARMED (neither LOCKED nor
UNLOCKED) falls off the end of `_process_biometric_input` and returns
Python `None` instead of a `(bool, str)` tuple. -/
theorem C6_totality_failing_inputs :
    (process_trigger (initFSM 0) 0 noise0 TriggerType.SCHEDULE {}).2
        = PyResult.exn "AttributeError: _process_scheduled_event"
  ∧ (process_trigger (initFSM 0) 0 noise0 TriggerType.BIOMETRIC
        { biometric_data := "admin_print" }).2 = PyResult.retNone := by
  constructor
  · decide
  · decide

/-- C7 counterexample: the claimed invariant "valid for authentication
only while now < expiry" fails at the boundary.  In a fresh engine built
at time 0 the guest carries expiry 86400; at `now = 86400` the guest
code still authenticates although `now < expiry` is false — the source
rejects only `now > expires`. -/
theorem C7_expiry_boundary_counterexample :
    dictGet (initFSM 0).authorized_users "guest"
      = some { level := .GUEST, code := "0000", biometric := none,
               expires := some 86400 }
  ∧ authenticate_code (initFSM 0) 86400 "0000" = some "guest"
  ∧ ¬ ((86400 : Int) < 86400) := by
  refine ⟨by decide, by decide, by omega⟩

/-- C7 (amended): `_authenticate_code` returns the id of a registry user
whose stored code equals the submitted code and whose optional expiry is
not yet passed — a user with an expiry is valid while `now ≤ expiry`
(the source rejects only `now > expires`); if the first code-matching
user is expired, authentication returns no user.  In this embedding both
authentication functions are pure lookups returning only an optional id,
so they touch no engine field (in particular not `failed_attempts`). -/
theorem C7_authenticate_code (s : FSM) (now : Int) (code : String) :
    (∀ uid, authenticate_code s now code = some uid →
       ∃ ud, (uid, ud) ∈ s.authorized_users ∧ ud.code = code
         ∧ ∀ e, ud.expires = some e → now ≤ e)
  ∧ (∀ uid ud e,
       s.authorized_users.find? (fun p => decide (p.2.code = code))
         = some (uid, ud) →
       ud.expires = some e → now > e →
       authenticate_code s now code = none) := by
  constructor
  · intro uid h
    exact authCodeList_sound now code s.authorized_users uid h
  · intro uid ud e hf he hgt
    exact authCodeList_expired now code s.authorized_users uid ud e hf he hgt

/-- C7 witness: the admin code resolves to a registered user with a
matching code and no passed expiry. -/
theorem C7_authenticate_code_witness :
    ∃ ud, ("admin", ud) ∈ (initFSM 0).authorized_users ∧ ud.code = "1234"
      ∧ ∀ e, ud.expires = some e → (0 : Int) ≤ e :=
  (C7_authenticate_code (initFSM 0) 0 "1234").1 "admin" (by decide)

/-- C8: the audit history is FIFO-bounded: `_log_state_change` always
yields exactly the most recent entries, in order, of the old history
with the new entry appended at the end (keeping everything within the
1000-entry cap and evicting the oldest beyond it); every successful
transition appends exactly one entry this way; and every reachable
engine state holds at most 1000 entries. -/
theorem C8_history_fifo :
    (∀ (s : FSM) (now : Int) (fs : Option LockState) (ts : LockState) (r : String),
       (log_state_change s now fs ts r).state_history
         = (s.state_history ++ [mkEntry s now fs ts r]).drop
             (s.state_history.length + 1 - 1000))
  ∧ (∀ (s : FSM) (now : Int) (e r : String),
       (transition_to s now e r).2 = true →
       ∃ entry, ((transition_to s now e r).1).state_history
         = (s.state_history ++ [entry]).drop (s.state_history.length + 1 - 1000))
  ∧ (∀ s : FSM, Reachable s → s.state_history.length ≤ 1000) := by
  refine ⟨log_hist_eq, ?_, fun s h => (reachable_inv h).2⟩
  intro s now e r hsucc
  unfold transition_to at hsucc ⊢
  cases hl : lookupTransition s.current_state e with
  | none =>
    rw [hl] at hsucc
    exact Bool.noConfusion hsucc
  | some v =>
    obtain ⟨ns, dr⟩ := v
    dsimp only
    refine ⟨mkEntry s now (some s.current_state) ns (if r = "" then dr else r), ?_⟩
    rw [handle_entry_hist]
    exact log_hist_eq s now (some s.current_state) ns (if r = "" then dr else r)

/-- C8 witness: the fresh engine is within capacity, and a successful
`arm` transition appends exactly one entry. -/
theorem C8_history_fifo_witness :
    (initFSM 0).state_history.length ≤ 1000
  ∧ ∃ entry, ((transition_to (initFSM 0) 0 "arm" "x").1).state_history
      = ((initFSM 0).state_history ++ [entry]).drop
          ((initFSM 0).state_history.length + 1 - 1000) :=
  ⟨C8_history_fifo.2.2 (initFSM 0) (Reachable.init 0),
   C8_history_fifo.2.1 (initFSM 0) 0 "arm" "x" (by decide)⟩

theorem handle_entry_intrusion (s : FSM) (now : Int) (st : LockState)
    (hne : st ≠ LockState.TAMPERED) :
    (handle_state_entry s now st).intrusion_detected = s.intrusion_detected := by
  cases st <;> first | rfl | exact absurd rfl hne

theorem reset_targets_not_tampered :
    ∀ p ∈ transitionMatrix, p.1.2 = "reset" → p.2.1 ≠ LockState.TAMPERED := by
  decide

theorem transition_reset_intrusion (s : FSM) (now : Int) (r : String) :
    ((transition_to s now "reset" r).1).intrusion_detected
      = s.intrusion_detected := by
  unfold transition_to
  cases hl : lookupTransition s.current_state "reset" with
  | none => rfl
  | some v =>
    obtain ⟨ns, dr⟩ := v
    dsimp only
    rw [handle_entry_intrusion _ _ _
        (reset_targets_not_tampered _ (lookup_some_mem hl) rfl)]
    rfl

theorem transition_to_current_of_lookup {s : FSM} {e : String}
    {ns : LockState} {dr : String}
    (h : lookupTransition s.current_state e = some (ns, dr))
    (now : Int) (r : String) :
    ((transition_to s now e r).1).current_state = ns := by
  rw [transition_to_current, h]

/-- C9 counterexample: from a (directly constructed) LOCKOUT state with
the seeded admin user, `reset_security("1234")` returns true but
performs no `reset` transition: the state remains LOCKOUT and the
history is untouched, because the table has no `(LOCKOUT, reset)`
entry. -/
theorem C9_lockout_reset_counterexample :
    (reset_security lockoutState 0 "1234").2 = true
  ∧ ((reset_security lockoutState 0 "1234").1).current_state
      = LockState.LOCKOUT
  ∧ ((reset_security lockoutState 0 "1234").1).state_history
      = lockoutState.state_history := by
  exact ⟨rfl, rfl, rfl⟩

/-- C9 (amended): `reset_security` succeeds exactly when the code
authenticates as "admin"; a failed call changes nothing; a successful
call zeroes `failed_attempts`, clears the lockout window and the
intrusion flag, performs the `reset` transition to LOCKED when the state
is TAMPERED, leaves the state at LOCKOUT when it is LOCKOUT (the
attempted `reset` transition is a no-op there), and otherwise leaves the
state unchanged. -/
theorem C9_reset_security (s : FSM) (now : Int) (admin_code : String) :
    ((reset_security s now admin_code).2 = true ↔
        authenticate_code s now admin_code = some "admin")
  ∧ (authenticate_code s now admin_code ≠ some "admin" →
        reset_security s now admin_code = (s, false))
  ∧ (authenticate_code s now admin_code = some "admin" →
        ((reset_security s now admin_code).1).failed_attempts = 0
      ∧ ((reset_security s now admin_code).1).lockout_start_time = none
      ∧ ((reset_security s now admin_code).1).intrusion_detected = false
      ∧ (s.current_state = LockState.TAMPERED →
           ((reset_security s now admin_code).1).current_state
             = LockState.LOCKED)
      ∧ (s.current_state = LockState.LOCKOUT →
           ((reset_security s now admin_code).1).current_state
             = LockState.LOCKOUT)
      ∧ (s.current_state ≠ LockState.TAMPERED →
         s.current_state ≠ LockState.LOCKOUT →
           ((reset_security s now admin_code).1).current_state
             = s.current_state)) := by
  by_cases ha : authenticate_code s now admin_code = some "admin"
  · have hr : reset_security s now admin_code
        = (if s.current_state = LockState.LOCKOUT
              ∨ s.current_state = LockState.TAMPERED
           then (transition_to
                  { s with failed_attempts := 0, lockout_start_time := none,
                           intrusion_detected := false } now "reset"
                  "Admin security reset").1
           else { s with failed_attempts := 0, lockout_start_time := none,
                         intrusion_detected := false }, true) := by
      unfold reset_security
      rw [if_pos ha]
    rw [hr]
    refine ⟨by simp [ha], fun hn => absurd ha hn, fun _ => ?_⟩
    by_cases hc : s.current_state = LockState.LOCKOUT
        ∨ s.current_state = LockState.TAMPERED
    · rw [if_pos hc]
      refine ⟨?_, ?_, ?_, ?_, ?_, ?_⟩
      · rw [transition_to_failed]
      · rw [transition_to_lockout_start]
      · rw [transition_reset_intrusion]
      · intro ht
        have hl : lookupTransition
            ({ s with failed_attempts := 0, lockout_start_time := none,
                      intrusion_detected := false } : FSM).current_state "reset"
            = some (LockState.LOCKED, "Security reset") := by
          show lookupTransition s.current_state "reset" = _
          rw [ht]
          decide
        exact transition_to_current_of_lookup hl now "Admin security reset"
      · intro hlk
        have hl : lookupTransition
            ({ s with failed_attempts := 0, lockout_start_time := none,
                      intrusion_detected := false } : FSM).current_state "reset"
            = none := by
          show lookupTransition s.current_state "reset" = none
          rw [hlk]
          decide
        rw [transition_to_current, hl]
        exact hlk
      · intro hnt hnl
        rcases hc with hc | hc
        · exact absurd hc hnl
        · exact absurd hc hnt
    · rw [if_neg hc]
      refine ⟨rfl, rfl, rfl, ?_, ?_, fun _ _ => rfl⟩
      · intro ht
        exact absurd (Or.inr ht) hc
      · intro hlk
        exact absurd (Or.inl hlk) hc
  · have hr : reset_security s now admin_code = (s, false) := by
      unfold reset_security
      rw [if_neg ha]
    rw [hr]
    refine ⟨by simp [ha], fun _ => rfl, fun hcontra => absurd hcontra ha⟩

/-- C9 witness: on a fresh engine the admin code succeeds and zeroes the
failed-attempt counter, and a wrong code changes nothing. -/
theorem C9_reset_security_witness :
    (reset_security (initFSM 0) 0 "1234").2 = true
  ∧ ((reset_security (initFSM 0) 0 "1234").1).failed_attempts = 0
  ∧ reset_security (initFSM 0) 0 "9999" = (initFSM 0, false) :=
  ⟨(C9_reset_security (initFSM 0) 0 "1234").1.mpr (by decide),
   ((C9_reset_security (initFSM 0) 0 "1234").2.2 (by decide)).1,
   (C9_reset_security (initFSM 0) 0 "9999").2.1 (by decide)⟩

/-- C10: `add_user` silently replaces any existing record bound to the
same id — including the reserved "admin" — leaving other users
untouched, the registry size unchanged for an existing id, and key
uniqueness preserved; `remove_user` always refuses to delete "admin". -/
theorem C10_add_user_overwrites (s : FSM) (uid : String) (level : SecurityLevel)
    (code : String) (bio : Option String) (exp : Option Int) :
    dictGet ((add_user s uid level code bio exp).authorized_users) uid
      = some { level := level, code := code, biometric := bio, expires := exp }
  ∧ (∀ uid2, uid2 ≠ uid →
       dictGet ((add_user s uid level code bio exp).authorized_users) uid2
         = dictGet s.authorized_users uid2)
  ∧ (s.authorized_users.any (fun p => decide (p.1 = uid)) = true →
       ((add_user s uid level code bio exp).authorized_users).length
         = s.authorized_users.length)
  ∧ ((s.authorized_users.map (fun p => p.1)).Nodup →
       (((add_user s uid level code bio exp).authorized_users).map
           (fun p => p.1)).Nodup)
  ∧ remove_user s "admin" = (s, false) := by
  refine ⟨?_, ?_, ?_, ?_, ?_⟩
  · exact dictGet_set_self _ _ _
  · intro uid2 h
    exact dictGet_set_other _ _ _ _ h
  · intro h
    exact dictSet_length_of_mem _ _ _ h
  · intro h
    exact dictSet_keys_nodup _ _ _ h
  · unfold remove_user
    exact if_neg (fun hc => hc.2 rfl)

/-- C10 witness: overwriting the seeded admin record succeeds silently
and keeps the registry size, while removing "admin" is refused. -/
theorem C10_add_user_overwrites_witness :
    dictGet ((add_user (initFSM 0) "admin" SecurityLevel.GUEST "0042"
        none none).authorized_users) "admin"
      = some { level := .GUEST, code := "0042", biometric := none, expires := none }
  ∧ ((add_user (initFSM 0) "admin" SecurityLevel.GUEST "0042"
        none none).authorized_users).length
      = (initFSM 0).authorized_users.length
  ∧ remove_user (initFSM 0) "admin" = (initFSM 0, false) :=
  ⟨(C10_add_user_overwrites (initFSM 0) "admin" .GUEST "0042" none none).1,
   (C10_add_user_overwrites (initFSM 0) "admin" .GUEST "0042" none none).2.2.1
     (by decide),
   (C10_add_user_overwrites (initFSM 0) "admin" .GUEST "0042" none none).2.2.2.2⟩

end SmartLock
